import Mathlib

/-!
# Verification of the smart building-management controller (`assignment5.py`)

Shallow embedding of the core control logic of the Raspberry Pi
building-management system: the shared mutable state, the sensor
averaging filter, the humidity fetch fallback, the setpoint
adjusters, the door-toggle handler, the motion-light monitor step,
and one iteration of the slow control loop (fire-alarm transition
check followed by the HVAC transition check).

Modelling conventions:
* Python floats are idealised as exact rationals (`ℚ`); Python's
  `round` (banker's rounding, half to even) is `pyRound`.
* The HVAC mode is a Python string in the source (`"OFF"`, `"HEAT"`,
  `"AC"`); it is kept as a `String` here.  `"AC"` is the COOL mode.
* Hardware reads, the HTTP response, the PIR motion value and the
  wall clock are inputs to the step functions:  a `none` read models
  `readDHT11() != 0`, and the motion step takes the polled motion
  bit and the current time.
* LED writes are tracked as boolean fields (`red_led` = heat output,
  `blue_led` = cool output, `green_led` = ambient light output);
  `log_event` calls are collected into a list of message strings
  returned next to the updated state.
-/

set_option autoImplicit false

namespace BMS

/-- Python's `round`: round half to even (banker's rounding). -/
def pyRound (q : ℚ) : ℤ :=
  let f : ℤ := ⌊q⌋
  let r : ℚ := q - (f : ℚ)
  if r < 1/2 then f
  else if 1/2 < r then f + 1
  else if f % 2 = 0 then f else f + 1

/-- The shared global state of `assignment5.py` (lines 33–39) together
with the three LED outputs.  `hvac_state` is one of the strings
`"OFF"`, `"HEAT"`, `"AC"` as in the source. -/
structure SystemState where
  desired_temp : ℤ
  hvac_state : String
  door_open : Bool
  ambient_light_on : Bool
  fire_alarm_active : Bool
  last_motion_time : ℚ
  temperature_readings : List ℚ
  red_led : Bool
  blue_led : Bool
  green_led : Bool
deriving DecidableEq, Repr

/-- Initial state: module-level globals (lines 33–39), LEDs turned off by
`initialize_system`, and `hvac_state = "OFF"` re-set at the top of
`monitor_environment`. -/
def initialState : SystemState :=
  { desired_temp := 72
    hvac_state := "OFF"
    door_open := false
    ambient_light_on := false
    fire_alarm_active := false
    last_motion_time := 0
    temperature_readings := []
    red_led := false
    blue_led := false
    green_led := false }

/-- `deque(maxlen=3).append`: append on the right, evicting from the left
when the deque already holds 3 entries. -/
def dequeAppend3 (w : List ℚ) (x : ℚ) : List ℚ :=
  let w' := w ++ [x]
  w'.drop (w'.length - 3)

/-- Celsius to Fahrenheit as in line 139: `temp_c * 9 / 5 + 32`. -/
def toFahrenheit (c : ℚ) : ℚ := c * 9 / 5 + 32

/-- `get_average_temperature` (lines 134–145).  The hardware read is an
input: `none` models `readDHT11() != 0` (failed read), `some c` a
successful read of `c` °C.  Returns the optional rounded average and
the updated rolling window. -/
def get_average_temperature (read : Option ℚ) (w : List ℚ) :
    Option ℤ × List ℚ :=
  match read with
  | none => (none, w)
  | some temp_c =>
    let temp_f := toFahrenheit temp_c
    let w' := dequeAppend3 w temp_f
    if w'.length = 3 then (some (pyRound (w'.sum / 3)), w') else (none, w')

/-- The observable part of the weather-API exchange: the HTTP status code
and the parsed `['main']['humidity']` value (`none` when the body is
malformed or the key is missing, which raises inside the `try`). -/
structure HttpResponse where
  status_code : ℤ
  humidity : Option ℤ
deriving DecidableEq, Repr

/-- `get_humidity` (lines 150–161).  `resp = none` models any exception
before a response is available (timeout, connection error); otherwise
the body lookup may itself fail.  Every failure path falls through to
the fixed fallback `55`. -/
def get_humidity (resp : Option HttpResponse) : ℤ :=
  match resp with
  | none => 55
  | some r =>
    if r.status_code = 200 then
      match r.humidity with
      | some h => h
      | none => 55
    else 55

/-- `increase_desired_temp` (lines 166–170). -/
def increase_desired_temp (s : SystemState) : SystemState :=
  if s.desired_temp < 99 then { s with desired_temp := s.desired_temp + 1 }
  else s

/-- `decrease_desired_temp` (lines 172–176). -/
def decrease_desired_temp (s : SystemState) : SystemState :=
  if 65 < s.desired_temp then { s with desired_temp := s.desired_temp - 1 }
  else s

/-- `toggle_door_state` (lines 109–129): toggle `door_open`; on opening
turn both HVAC LEDs off and log `DOOR OPEN` then `HVAC OFF`; on closing
log `DOOR CLOSED` only.  Returns the new state and the emitted log
messages. -/
def toggle_door_state (s : SystemState) : SystemState × List String :=
  let s' := { s with door_open := !s.door_open }
  if s'.door_open then
    ({ s' with red_led := false, blue_led := false },
      ["DOOR OPEN", "HVAC OFF"])
  else
    (s', ["DOOR CLOSED"])

/-- One iteration of the `motion_monitor` loop body (lines 77–89).
`motion` is the polled `pir.motion_detected` value and `now` the value
of `time.time()` for this poll. -/
def motion_monitor_step (motion : Bool) (now : ℚ) (s : SystemState) :
    SystemState × List String :=
  if s.fire_alarm_active then (s, [])
  else if motion then
    if s.ambient_light_on then ({ s with last_motion_time := now }, [])
    else
      ({ s with green_led := true, ambient_light_on := true,
                last_motion_time := now }, ["LIGHTS ON"])
  else if s.ambient_light_on ∧ 10 < now - s.last_motion_time then
    ({ s with green_led := false, ambient_light_on := false },
      ["LIGHTS OFF"])
  else (s, [])

/-- The fire-alarm transition check of `monitor_environment`
(lines 193–208), for one iteration with weather index `wi`. -/
def alarm_check (wi : ℤ) (s : SystemState) : SystemState × List String :=
  if 90 < wi then
    if s.fire_alarm_active then (s, [])
    else
      ({ s with fire_alarm_active := true, door_open := true,
                red_led := false, blue_led := false },
        ["FIRE ALARM ON", "HVAC OFF"])
  else if s.fire_alarm_active then
    ({ s with fire_alarm_active := false, green_led := false },
      ["FIRE ALARM OFF"])
  else (s, [])

/-- The HVAC evaluation of `monitor_environment` (lines 216–238): the
mode decision, the LED writes and the edge-triggered mode-change log.
Run by the loop only when `fire_alarm_active` is false. -/
def hvac_eval (wi : ℤ) (s : SystemState) : SystemState × List String :=
  let prev := s.hvac_state
  let s' :=
    if s.door_open then
      { s with hvac_state := "OFF", red_led := false, blue_led := false }
    else if wi < s.desired_temp - 3 then
      { s with hvac_state := "HEAT", red_led := true, blue_led := false }
    else if s.desired_temp + 3 < wi then
      { s with hvac_state := "AC", blue_led := true, red_led := false }
    else
      { s with hvac_state := "OFF", red_led := false, blue_led := false }
  if s'.hvac_state ≠ prev then (s', ["HVAC " ++ s'.hvac_state])
  else (s', [])

/-- Lines 192–238 of the loop body: the alarm check followed — only when
`fire_alarm_active` is false afterwards — by the HVAC evaluation. -/
def control_body (wi : ℤ) (s : SystemState) : SystemState × List String :=
  let p := alarm_check wi s
  if p.1.fire_alarm_active then p
  else
    let q := hvac_eval wi p.1
    (q.1, p.2 ++ q.2)

/-- One iteration of the slow `monitor_environment` loop (lines 187–240):
read the sensor, update the rolling window, and if an average is
available compute the weather index `round(avg + 0.05 * humidity)`
(line 190) and run the alarm and HVAC checks. -/
def slowStep (read : Option ℚ) (humidity : ℤ) (s : SystemState) :
    SystemState × List String :=
  let r := get_average_temperature read s.temperature_readings
  let s1 := { s with temperature_readings := r.2 }
  match r.1 with
  | none => (s1, [])
  | some avg => control_body (pyRound ((avg : ℚ) + 5/100 * (humidity : ℚ))) s1

/-- One interleaving step of the concurrently scheduled actors the claims
quantify over: a slow control-loop iteration (with arbitrary sensor
read and humidity) or an asynchronous door-button press. -/
inductive Step : SystemState → SystemState → Prop
  | slow (read : Option ℚ) (humidity : ℤ) (s : SystemState) :
      Step s (slowStep read humidity s).1
  | door (s : SystemState) : Step s (toggle_door_state s).1

/-- States reachable from the initial state by interleaving slow control
cycles and door-button presses. -/
inductive Reachable : SystemState → Prop
  | init : Reachable initialState
  | step {s s' : SystemState} : Reachable s → Step s s' → Reachable s'

/-- The HVAC mode decision as the spec words it (§4.6, with the source's
string representation of the modes, `"AC"` being COOL): door forces OFF,
then the hysteresis band around the setpoint decides HEAT/COOL/OFF. -/
def hvac_mode_spec (door : Bool) (wi sp : ℤ) : String :=
  if door then "OFF"
  else if wi < sp - 3 then "HEAT"
  else if sp + 3 < wi then "AC"
  else "OFF"

/-- A closed state with the given setpoint and door position and all other
fields at their initial values, used to evaluate the HVAC rules on the
spec's example inputs. -/
def testState (sp : ℤ) (door : Bool) : SystemState :=
  { initialState with desired_temp := sp, door_open := door }

/-- Concrete execution trace: three slow cycles reading 10 °C (= 50 °F)
with humidity 0.  After the third the window is full, the index is 50
and the HVAC hysteresis switches to HEAT. -/
def st1 : SystemState := (slowStep (some 10) 0 initialState).1

/-- Second state of the concrete trace. -/
def st2 : SystemState := (slowStep (some 10) 0 st1).1

/-- Third state of the concrete trace: `hvac_state = "HEAT"`, heat LED on,
no alarm. -/
def st3 : SystemState := (slowStep (some 10) 0 st2).1

/-- Fourth state: one more slow cycle reading 100 °C (= 212 °F) pushes the
index to 104, entering the fire alarm — while `hvac_state` is still
`"HEAT"`. -/
def st4 : SystemState := (slowStep (some 100) 0 st3).1

/-- Fifth state: a door-button press during the active alarm, which closes
the door again. -/
def st5 : SystemState := (toggle_door_state st4).1

/-- A state in which the fire alarm is active with the door forced open,
as after an alarm entry. -/
def alarmState : SystemState :=
  { initialState with fire_alarm_active := true, door_open := true }

/-- A state in which the HVAC is heating with the door closed and no
alarm. -/
def heatState : SystemState :=
  { initialState with hvac_state := "HEAT", red_led := true }

/-- A state in which the ambient light is on, last motion at time 0, no
alarm. -/
def litState : SystemState :=
  { initialState with ambient_light_on := true, green_led := true }

/-- Folding a sequence of successful Celsius readings through
`get_average_temperature`, starting from the empty window; returns the
last push's result and the final window. -/
def runPushes (cs : List ℚ) : Option ℤ × List ℚ :=
  cs.foldl (fun acc c => get_average_temperature (some c) acc.2) (none, [])

/-- A press of the blue (setpoint-increase) or red (setpoint-decrease)
button. -/
inductive SetpointEvent
  | inc
  | dec
deriving DecidableEq, Repr

/-- Dispatch one setpoint button press to its handler. -/
def applySetpointEvent (s : SystemState) (e : SetpointEvent) : SystemState :=
  match e with
  | .inc => increase_desired_temp s
  | .dec => decrease_desired_temp s

/-- The state after a sequence of setpoint button presses starting from
the initial state (setpoint 72). -/
def runSetpointEvents (es : List SetpointEvent) : SystemState :=
  es.foldl applySetpointEvent initialState

/-- Invariant: while the fire alarm is active, both HVAC actuator outputs
(heat LED, cool LED) are deasserted. -/
def LedsOffInv (s : SystemState) : Prop :=
  s.fire_alarm_active = true → s.red_led = false ∧ s.blue_led = false

/-! ## Theorems -/

/-- A successful push leaves the window updated by the bounded append. -/
theorem get_avg_some_snd (c : ℚ) (w : List ℚ) :
    (get_average_temperature (some c) w).2 = dequeAppend3 w (toFahrenheit c) := by
  simp only [get_average_temperature]
  split <;> rfl

/-- A successful push returns the rounded window mean exactly when the
updated window holds 3 entries. -/
theorem get_avg_some_fst (c : ℚ) (w : List ℚ) :
    (get_average_temperature (some c) w).1 =
      if (dequeAppend3 w (toFahrenheit c)).length = 3 then
        some (pyRound ((dequeAppend3 w (toFahrenheit c)).sum / 3))
      else none := by
  simp only [get_average_temperature]
  split <;> simp_all

/-- The bounded append keeps the last 3 of the extended list. -/
theorem dequeAppend3_eq (w : List ℚ) (x : ℚ) :
    dequeAppend3 w x = (w ++ [x]).drop (w.length + 1 - 3) := by
  simp [dequeAppend3]

/-- Unfolding one push off the end of a push sequence. -/
theorem runPushes_concat (l : List ℚ) (c : ℚ) :
    runPushes (l ++ [c]) = get_average_temperature (some c) (runPushes l).2 := by
  simp [runPushes, List.foldl_append]

/-- After any sequence of successful pushes the window holds exactly the
last 3 Fahrenheit-converted samples (all of them while fewer than 3). -/
theorem runPushes_window (cs : List ℚ) :
    (runPushes cs).2 = (cs.map toFahrenheit).drop (cs.length - 3) := by
  induction cs using List.reverseRecOn with
  | nil => rfl
  | append_singleton l c ih =>
    rw [runPushes_concat, get_avg_some_snd, ih, dequeAppend3_eq]
    rw [List.map_append, List.length_append]
    simp only [List.length_drop, List.length_map, List.map_cons, List.map_nil,
      List.length_cons, List.length_nil]
    rcases le_or_lt l.length 2 with hn | hn
    · have h0 : l.length - 3 = 0 := by omega
      rw [h0]
      simp
    · have h3 : l.length - (l.length - 3) = 3 := by omega
      rw [h3]
      rw [List.drop_append_of_le_length (by simp [List.length_drop]; omega)]
      rw [List.drop_drop]
      rw [List.drop_append_of_le_length (by simp only [List.length_map]; omega)]
      congr 2
      omega

/-- The HVAC evaluation never writes the alarm flag. -/
theorem hvac_eval_fire (wi : ℤ) (s : SystemState) :
    (hvac_eval wi s).1.fire_alarm_active = s.fire_alarm_active := by
  simp only [hvac_eval]
  split_ifs <;> rfl

/-- `slowStep` unfolded past its let-bindings. -/
theorem slowStep_eq (read : Option ℚ) (hum : ℤ) (s : SystemState) :
    slowStep read hum s =
      match (get_average_temperature read s.temperature_readings).1 with
      | none =>
        ({ s with temperature_readings :=
            (get_average_temperature read s.temperature_readings).2 }, [])
      | some avg =>
        control_body (pyRound ((avg : ℚ) + 5/100 * (hum : ℚ)))
          { s with temperature_readings :=
              (get_average_temperature read s.temperature_readings).2 } := rfl

/-- The alarm transition check preserves the deasserted-outputs
invariant: it turns both HVAC LEDs off on alarm entry and never turns
one on. -/
theorem alarm_check_ledsOff (wi : ℤ) (s : SystemState) (h : LedsOffInv s) :
    LedsOffInv (alarm_check wi s).1 := by
  unfold LedsOffInv at *
  unfold alarm_check
  split_ifs <;> intro hf <;> simp_all

/-- The combined alarm-then-HVAC body preserves the invariant: the HVAC
evaluation (which can assert a LED) only runs while the alarm is
inactive. -/
theorem control_body_ledsOff (wi : ℤ) (s : SystemState) (h : LedsOffInv s) :
    LedsOffInv (control_body wi s).1 := by
  have ha := alarm_check_ledsOff wi s h
  unfold control_body
  by_cases hp : (alarm_check wi s).1.fire_alarm_active = true
  · rw [if_pos hp]
    exact ha
  · rw [if_neg hp]
    intro hf
    rw [hvac_eval_fire] at hf
    exact absurd hf hp

/-- The door handler preserves the invariant: on opening it deasserts
both HVAC LEDs, on closing it leaves them alone. -/
theorem toggle_ledsOff (s : SystemState) (h : LedsOffInv s) :
    LedsOffInv (toggle_door_state s).1 := by
  unfold LedsOffInv at *
  cases hd : s.door_open <;> simp_all [toggle_door_state]

/-- One slow control cycle preserves the invariant. -/
theorem slowStep_ledsOff (read : Option ℚ) (hum : ℤ) (s : SystemState)
    (h : LedsOffInv s) : LedsOffInv (slowStep read hum s).1 := by
  rw [slowStep_eq]
  split
  · exact h
  · exact control_body_ledsOff _ _ h

/-- Every state reachable by interleaving slow cycles and door presses
satisfies the deasserted-outputs invariant. -/
theorem reachable_ledsOff (s : SystemState) (h : Reachable s) : LedsOffInv s := by
  induction h with
  | init => intro hh; cases hh
  | step hr hstep ih =>
    cases hstep with
    | slow read hum => exact slowStep_ledsOff _ _ _ ih
    | door => exact toggle_ledsOff _ ih

/-- Claim C1 counterexample: the state `st5` — reached from the initial
state by three slow cycles reading 10 °C (HVAC switches to HEAT), one
slow cycle reading 100 °C (index 104 enters the fire alarm), and one
door-button press during the alarm — has `fire_alarm_active = true`
together with `hvac_state = "HEAT" ≠ "OFF"` and `door_open = false`,
refuting both the `hvac_mode == OFF` and the `door_open == true`
conjuncts of the claimed invariant. -/
theorem C1_fire_invariant_counterexample :
    Reachable st5 ∧ st5.fire_alarm_active = true ∧
    st5.hvac_state ≠ "OFF" ∧ st5.door_open = false := by
  refine ⟨?_, by with_unfolding_all decide⟩
  exact ((((Reachable.init.step (Step.slow (some 10) 0 initialState)).step
    (Step.slow (some 10) 0 st1)).step (Step.slow (some 10) 0 st2)).step
    (Step.slow (some 100) 0 st3)).step (Step.door st4)

/-- Claim C1 (amended): for every state reachable under any interleaving
of the slow control loop and the door-button handler, whenever
`fire_alarm_active = true` both heat/cool actuator outputs are
deasserted.  (The stored `hvac_state` may retain a non-OFF value, and a
door press during the alarm may make `door_open` false again.) -/
theorem C1_fire_outputs_deasserted (s : SystemState) (h : Reachable s)
    (hf : s.fire_alarm_active = true) :
    s.red_led = false ∧ s.blue_led = false :=
  reachable_ledsOff s h hf

/-- Witness for C1 at the reachable alarm state `st4`. -/
theorem C1_fire_outputs_deasserted_witness :
    st4.red_led = false ∧ st4.blue_led = false := by
  have h4 : Reachable st4 :=
    (((Reachable.init.step (Step.slow (some 10) 0 initialState)).step
      (Step.slow (some 10) 0 st1)).step (Step.slow (some 10) 0 st2)).step
      (Step.slow (some 100) 0 st3)
  exact C1_fire_outputs_deasserted st4 h4 (by with_unfolding_all decide)

/-- Claim C3: over any sequence of successful temperature pushes, the
filter's window is exactly the last 3 Fahrenheit-converted samples
(oldest evicted first, sliding, never reset), so it never holds more
than 3 entries, and the push result is `none` until 3 samples have been
pushed and the rounded mean of the current window from the third push
onward.  Applying the theorem to every prefix of a push sequence gives
the per-push guarantee. -/
theorem C3_sensor_filter (cs : List ℚ) :
    (runPushes cs).2 = (cs.map toFahrenheit).drop (cs.length - 3) ∧
    (runPushes cs).2.length = min cs.length 3 ∧
    (runPushes cs).1 =
      (if cs.length < 3 then none
       else some (pyRound
         (((cs.map toFahrenheit).drop (cs.length - 3)).sum / 3))) := by
  have hw := runPushes_window cs
  have hlen : (runPushes cs).2.length = min cs.length 3 := by
    rw [hw]
    simp only [List.length_drop, List.length_map]
    omega
  refine ⟨hw, hlen, ?_⟩
  rcases List.eq_nil_or_concat cs with rfl | ⟨l, c, rfl⟩
  · simp [runPushes]
  · simp only [List.concat_eq_append] at *
    have hD : dequeAppend3 (runPushes l).2 (toFahrenheit c) =
        ((l ++ [c]).map toFahrenheit).drop ((l ++ [c]).length - 3) := by
      rw [← get_avg_some_snd, ← runPushes_concat, runPushes_window]
    rw [runPushes_concat, get_avg_some_fst, hD]
    have hlen2 : (((l ++ [c]).map toFahrenheit).drop
        ((l ++ [c]).length - 3)).length = min (l.length + 1) 3 := by
      simp only [List.length_drop, List.length_map, List.length_append,
        List.length_cons, List.length_nil]
      omega
    by_cases h : (l ++ [c]).length < 3
    · rw [if_neg (by rw [hlen2]; simp only [List.length_append,
        List.length_cons, List.length_nil] at h; omega), if_pos h]
    · rw [if_pos (by rw [hlen2]; simp only [List.length_append,
        List.length_cons, List.length_nil] at h; omega), if_neg h]

/-- Claim C2: one HVAC evaluation step — run only while the alarm is
inactive — sets the mode by the priority order: door open forces OFF,
else an index below `setpoint - 3` gives HEAT, else an index above
`setpoint + 3` gives COOL (the source's string for the cool mode is
`"AC"`), else OFF; and the spec's example inputs with setpoint 72
evaluate to HEAT at 68, COOL at 76, OFF at 72, OFF at 69 (boundary),
and OFF at 68 with the door open. -/
theorem C2_hvac_priority (wi : ℤ) (s : SystemState) :
    (hvac_eval wi s).1.hvac_state = hvac_mode_spec s.door_open wi s.desired_temp ∧
    (hvac_eval 68 (testState 72 false)).1.hvac_state = "HEAT" ∧
    (hvac_eval 76 (testState 72 false)).1.hvac_state = "AC" ∧
    (hvac_eval 72 (testState 72 false)).1.hvac_state = "OFF" ∧
    (hvac_eval 69 (testState 72 false)).1.hvac_state = "OFF" ∧
    (hvac_eval 68 (testState 72 true)).1.hvac_state = "OFF" := by
  refine ⟨?_, by decide, by decide, by decide, by decide, by decide⟩
  simp only [hvac_eval, hvac_mode_spec]
  split_ifs <;> simp_all

/-- Claim C6: a failed hardware read pushes nothing into the averaging
window, leaves the window exactly unchanged, returns no average, and the
whole slow-loop iteration it occurs in leaves the state untouched and
emits no log entry (the embedding is total, so no error is raised). -/
theorem C6_failed_read (w : List ℚ) (humidity : ℤ) (s : SystemState) :
    get_average_temperature none w = (none, w) ∧
    slowStep none humidity s = (s, []) :=
  ⟨rfl, rfl⟩

/-- Claim C7: the humidity fetch falls back to the fixed value 55 on every
failure path (exception/timeout, non-200 status, unparsable body), returns
the response's humidity value on a successful response, and therefore —
under the §6 collaborator contract that a successfully parsed humidity is
a percentage in [0, 100] — always returns an integer in [0, 100]. -/
theorem C7_humidity_fallback (resp : Option HttpResponse) :
    get_humidity none = 55 ∧
    (∀ r : HttpResponse, r.status_code ≠ 200 → get_humidity (some r) = 55) ∧
    (∀ r : HttpResponse, r.humidity = none → get_humidity (some r) = 55) ∧
    (∀ (r : HttpResponse) (hv : ℤ), r.status_code = 200 → r.humidity = some hv →
      get_humidity (some r) = hv) ∧
    ((∀ (r : HttpResponse) (hv : ℤ), resp = some r → r.humidity = some hv →
        0 ≤ hv ∧ hv ≤ 100) →
      0 ≤ get_humidity resp ∧ get_humidity resp ≤ 100) := by
  refine ⟨rfl, ?_, ?_, ?_, ?_⟩
  · intro r hr
    simp [get_humidity, hr]
  · intro r hr
    simp only [get_humidity, hr]
    split_ifs <;> rfl
  · intro r hv hs hh
    simp [get_humidity, hs, hh]
  · intro hbound
    match resp with
    | none => exact ⟨by norm_num [get_humidity], by norm_num [get_humidity]⟩
    | some r =>
      by_cases hs : r.status_code = 200
      · match hh : r.humidity with
        | none =>
          simp only [get_humidity, hs, if_pos, hh]
          norm_num
        | some hv =>
          have hb := hbound r hv rfl hh
          simpa only [get_humidity, hs, if_pos, hh] using hb
      · simp only [get_humidity, if_neg hs]
        norm_num

/-- Witness for C7 at concrete responses: a timeout, a 404, a 200 with a
malformed body, and a 200 carrying humidity 30. -/
theorem C7_humidity_fallback_witness :
    get_humidity none = 55 ∧
    get_humidity (some ⟨404, some 30⟩) = 55 ∧
    get_humidity (some ⟨200, none⟩) = 55 ∧
    get_humidity (some ⟨200, some 30⟩) = 30 ∧
    0 ≤ get_humidity (some ⟨200, some 30⟩) ∧
    get_humidity (some ⟨200, some 30⟩) ≤ 100 := by
  have h := C7_humidity_fallback (some ⟨200, some 30⟩)
  have hb := h.2.2.2.2 (by
    intro r hv heq hh
    cases heq
    cases hh
    constructor <;> norm_num)
  exact ⟨h.1, h.2.1 ⟨404, some 30⟩ (by decide), h.2.2.1 ⟨200, none⟩ rfl,
    h.2.2.2.1 ⟨200, some 30⟩ 30 rfl rfl, hb.1, hb.2⟩

/-- Claim C8: starting from the initial setpoint 72, any sequence of
setpoint button presses keeps the setpoint within [65, 99]; an increment
at 99 and a decrement at 65 leave the state unchanged (saturation), and
away from the respective bound each press moves the setpoint by exactly
1. -/
theorem C8_setpoint_saturation (es : List SetpointEvent) (s : SystemState) :
    (65 ≤ (runSetpointEvents es).desired_temp ∧
      (runSetpointEvents es).desired_temp ≤ 99) ∧
    (s.desired_temp = 99 → increase_desired_temp s = s) ∧
    (s.desired_temp = 65 → decrease_desired_temp s = s) ∧
    (s.desired_temp < 99 →
      (increase_desired_temp s).desired_temp = s.desired_temp + 1) ∧
    (65 < s.desired_temp →
      (decrease_desired_temp s).desired_temp = s.desired_temp - 1) := by
  refine ⟨?_, ?_, ?_, ?_, ?_⟩
  · have key : ∀ (l : List SetpointEvent) (t : SystemState),
        65 ≤ t.desired_temp → t.desired_temp ≤ 99 →
        65 ≤ (l.foldl applySetpointEvent t).desired_temp ∧
          (l.foldl applySetpointEvent t).desired_temp ≤ 99 := by
      intro l
      induction l with
      | nil => exact fun t h1 h2 => ⟨h1, h2⟩
      | cons e l ih =>
        intro t h1 h2
        refine ih _ ?_ ?_ <;>
          cases e <;>
            simp only [applySetpointEvent, increase_desired_temp,
              decrease_desired_temp] <;>
            split_ifs <;> (try simp) <;> omega
    exact key es initialState (by decide) (by decide)
  · intro h
    simp [increase_desired_temp, h]
  · intro h
    simp [decrease_desired_temp, h]
  · intro h
    simp [increase_desired_temp, h]
  · intro h
    simp [decrease_desired_temp, h]

/-- Witness for C8: saturation at both bounds, unit steps at 72, and the
bounds after a concrete press sequence. -/
theorem C8_setpoint_saturation_witness :
    increase_desired_temp (testState 99 false) = testState 99 false ∧
    decrease_desired_temp (testState 65 false) = testState 65 false ∧
    (increase_desired_temp (testState 72 false)).desired_temp = 73 ∧
    (decrease_desired_temp (testState 72 false)).desired_temp = 71 ∧
    65 ≤ (runSetpointEvents [SetpointEvent.dec, SetpointEvent.inc]).desired_temp ∧
    (runSetpointEvents [SetpointEvent.dec, SetpointEvent.inc]).desired_temp ≤ 99 := by
  have h99 := (C8_setpoint_saturation [] (testState 99 false)).2.1 (by decide)
  have h65 := (C8_setpoint_saturation [] (testState 65 false)).2.2.1 (by decide)
  have hup := (C8_setpoint_saturation [] (testState 72 false)).2.2.2.1 (by decide)
  have hdn := (C8_setpoint_saturation [] (testState 72 false)).2.2.2.2 (by decide)
  have hbd := (C8_setpoint_saturation [SetpointEvent.dec, SetpointEvent.inc]
    initialState).1
  have hc : (testState 72 false).desired_temp = 72 := by decide
  refine ⟨h99, h65, ?_, ?_, hbd.1, hbd.2⟩ <;> omega

/-- Claim C10: a door-button press toggles `door_open` and, on opening,
deasserts both HVAC actuator outputs and logs `DOOR OPEN` then
`HVAC OFF`; it never writes `hvac_state`, which retains its prior value,
and leaves the setpoint, alarm flag, light flag and output, motion
timestamp and averaging window untouched.  On closing it logs
`DOOR CLOSED` only and leaves the actuator outputs as they were. -/
theorem C10_door_toggle_frame (s : SystemState) :
    (toggle_door_state s).1.hvac_state = s.hvac_state ∧
    (toggle_door_state s).1.desired_temp = s.desired_temp ∧
    (toggle_door_state s).1.fire_alarm_active = s.fire_alarm_active ∧
    (toggle_door_state s).1.ambient_light_on = s.ambient_light_on ∧
    (toggle_door_state s).1.last_motion_time = s.last_motion_time ∧
    (toggle_door_state s).1.temperature_readings = s.temperature_readings ∧
    (toggle_door_state s).1.green_led = s.green_led ∧
    (toggle_door_state s).1.door_open = !s.door_open ∧
    (s.door_open = false →
      (toggle_door_state s).1.red_led = false ∧
      (toggle_door_state s).1.blue_led = false ∧
      (toggle_door_state s).2 = ["DOOR OPEN", "HVAC OFF"]) ∧
    (s.door_open = true →
      (toggle_door_state s).1.red_led = s.red_led ∧
      (toggle_door_state s).1.blue_led = s.blue_led ∧
      (toggle_door_state s).2 = ["DOOR CLOSED"]) := by
  cases hd : s.door_open <;> simp [toggle_door_state, hd]

/-- Claim C4 counterexample: entering the alarm at index 91 from the
reachable heating state `st3` (three slow cycles reading 10 °C) sets
`fire_alarm_active` but leaves `hvac_state = "HEAT"`: the supervisor does
not force the stored HVAC mode to OFF on alarm entry (lines 193–200 never
assign `hvac_state`). -/
theorem C4_counterexample :
    st3.fire_alarm_active = false ∧ st3.hvac_state = "HEAT" ∧
    (alarm_check 91 st3).1.fire_alarm_active = true ∧
    (alarm_check 91 st3).1.hvac_state = "HEAT" ∧
    (alarm_check 91 st3).1.hvac_state ≠ "OFF" := by
  with_unfolding_all decide

/-- Claim C4 (amended): the supervisor transitions NORMAL → ALARM exactly
when the index exceeds 90, and on that entry (edge only) sets
`fire_alarm_active`, forces `door_open`, deasserts the heat/cool outputs
and logs `FIRE ALARM ON` and `HVAC OFF` once — while leaving the stored
`hvac_state` unchanged at its prior value rather than forcing it to OFF;
it transitions ALARM → NORMAL exactly when the index is at most 90,
clearing `fire_alarm_active`, deasserting the ambient-light output and
logging `FIRE ALARM OFF` once. -/
theorem C4_alarm_transitions (wi : ℤ) (s : SystemState) :
    (s.fire_alarm_active = false → 90 < wi →
      (alarm_check wi s).1.fire_alarm_active = true ∧
      (alarm_check wi s).1.door_open = true ∧
      (alarm_check wi s).1.red_led = false ∧
      (alarm_check wi s).1.blue_led = false ∧
      (alarm_check wi s).1.hvac_state = s.hvac_state ∧
      (alarm_check wi s).2 = ["FIRE ALARM ON", "HVAC OFF"]) ∧
    (s.fire_alarm_active = true → 90 < wi → alarm_check wi s = (s, [])) ∧
    (s.fire_alarm_active = true → wi ≤ 90 →
      (alarm_check wi s).1.fire_alarm_active = false ∧
      (alarm_check wi s).1.green_led = false ∧
      (alarm_check wi s).1.hvac_state = s.hvac_state ∧
      (alarm_check wi s).1.door_open = s.door_open ∧
      (alarm_check wi s).1.red_led = s.red_led ∧
      (alarm_check wi s).1.blue_led = s.blue_led ∧
      (alarm_check wi s).2 = ["FIRE ALARM OFF"]) ∧
    (s.fire_alarm_active = false → wi ≤ 90 → alarm_check wi s = (s, [])) := by
  refine ⟨?_, ?_, ?_, ?_⟩ <;> intro hf hw
  · simp [alarm_check, hf, hw]
  · simp [alarm_check, hf, hw]
  · simp [alarm_check, hf, not_lt.mpr hw]
  · simp [alarm_check, hf, not_lt.mpr hw]

/-- Witness for C4: entry at index 91 from the heating state, no repeated
entry while active, exit at index 90, and no transition at 90 when
inactive. -/
theorem C4_alarm_transitions_witness :
    (alarm_check 91 heatState).1.fire_alarm_active = true ∧
    (alarm_check 91 heatState).1.door_open = true ∧
    (alarm_check 91 heatState).2 = ["FIRE ALARM ON", "HVAC OFF"] ∧
    alarm_check 91 alarmState = (alarmState, []) ∧
    (alarm_check 90 alarmState).1.fire_alarm_active = false ∧
    (alarm_check 90 alarmState).2 = ["FIRE ALARM OFF"] ∧
    alarm_check 90 heatState = (heatState, []) := by
  have e1 := (C4_alarm_transitions 91 heatState).1 (by decide) (by decide)
  have e2 := (C4_alarm_transitions 91 alarmState).2.1 (by decide) (by decide)
  have e3 := (C4_alarm_transitions 90 alarmState).2.2.1 (by decide) (by decide)
  have e4 := (C4_alarm_transitions 90 heatState).2.2.2 (by decide) (by decide)
  exact ⟨e1.1, e1.2.1, e1.2.2.2.2.2, e2, e3.1, e3.2.2.2.2.2.2, e4⟩

/-- Claim C5: on any motion-monitor poll, the light is never turned off
while motion absence has lasted at most 10 seconds since
`last_motion_time`; once absence exceeds 10 seconds with the light on,
the light and its output turn off with exactly one `LIGHTS OFF` log
event; with the light already off an absent poll does nothing; and while
the fire alarm is active the poll body performs no mutation and emits
nothing. -/
theorem C5_motion_light (motion : Bool) (now : ℚ) (s : SystemState) :
    (s.fire_alarm_active = true → motion_monitor_step motion now s = (s, [])) ∧
    (s.fire_alarm_active = false → motion = false → s.ambient_light_on = true →
      now - s.last_motion_time ≤ 10 →
      motion_monitor_step motion now s = (s, [])) ∧
    (s.fire_alarm_active = false → motion = false → s.ambient_light_on = true →
      10 < now - s.last_motion_time →
      (motion_monitor_step motion now s).1.ambient_light_on = false ∧
      (motion_monitor_step motion now s).1.green_led = false ∧
      (motion_monitor_step motion now s).2 = ["LIGHTS OFF"]) ∧
    (s.fire_alarm_active = false → motion = false → s.ambient_light_on = false →
      motion_monitor_step motion now s = (s, [])) := by
  refine ⟨?_, ?_, ?_, ?_⟩
  · intro hf
    simp [motion_monitor_step, hf]
  · intro hf hm hl ht
    simp [motion_monitor_step, hf, hm, hl, not_lt.mpr ht]
  · intro hf hm hl ht
    simp [motion_monitor_step, hf, hm, hl, ht]
  · intro hf hm hl
    simp [motion_monitor_step, hf, hm, hl]

/-- Witness for C5: a poll during an alarm; 9 seconds of absence with the
light on (stays on, the spec's example); 11 seconds of absence (turns off
with one `LIGHTS OFF`); absence with the light already off. -/
theorem C5_motion_light_witness :
    motion_monitor_step true 1 alarmState = (alarmState, []) ∧
    motion_monitor_step false 9 litState = (litState, []) ∧
    (motion_monitor_step false 11 litState).1.ambient_light_on = false ∧
    (motion_monitor_step false 11 litState).1.green_led = false ∧
    (motion_monitor_step false 11 litState).2 = ["LIGHTS OFF"] ∧
    motion_monitor_step false 20 initialState = (initialState, []) := by
  have e1 := (C5_motion_light true 1 alarmState).1 (by decide)
  have e2 := (C5_motion_light false 9 litState).2.1 (by decide) (by decide)
    (by decide) (by with_unfolding_all decide)
  have e3 := (C5_motion_light false 11 litState).2.2.1 (by decide) (by decide)
    (by decide) (by with_unfolding_all decide)
  have e4 := (C5_motion_light false 20 initialState).2.2.2 (by decide)
    (by decide) (by decide)
  exact ⟨e1, e2, e3.1, e3.2.1, e3.2.2, e4⟩

/-- Claim C9: within one slow-loop iteration the alarm check runs first,
and whenever it leaves `fire_alarm_active` set — including when it set it
in this same iteration — the HVAC evaluation is skipped entirely: the
stored mode, the actuator writes and the HVAC logs are exactly the alarm
check's; when the alarm is inactive after the check, the HVAC evaluation
runs on the alarm check's output state. -/
theorem C9_alarm_before_hvac (wi : ℤ) (s : SystemState) :
    ((alarm_check wi s).1.fire_alarm_active = true →
      control_body wi s = alarm_check wi s) ∧
    ((alarm_check wi s).1.fire_alarm_active = false →
      control_body wi s =
        ((hvac_eval wi (alarm_check wi s).1).1,
          (alarm_check wi s).2 ++ (hvac_eval wi (alarm_check wi s).1).2)) ∧
    (s.fire_alarm_active = false → 90 < wi →
      (control_body wi s).1.hvac_state = s.hvac_state ∧
      (control_body wi s).2 = ["FIRE ALARM ON", "HVAC OFF"]) := by
  refine ⟨?_, ?_, ?_⟩
  · intro h
    simp [control_body, h]
  · intro h
    simp [control_body, h]
  · intro hf hw
    have h : (alarm_check wi s).1.fire_alarm_active = true := by
      simp [alarm_check, hf, hw]
    simp [control_body, h, alarm_check, hf, hw]

/-- Witness for C9: the iteration that enters the alarm from the heating
state skips the HVAC evaluation (mode stays `"HEAT"`), an iteration with
the alarm already active is the alarm check alone, and a calm iteration
runs the HVAC evaluation after the alarm check. -/
theorem C9_alarm_before_hvac_witness :
    (control_body 104 heatState).1.hvac_state = "HEAT" ∧
    (control_body 104 heatState).2 = ["FIRE ALARM ON", "HVAC OFF"] ∧
    control_body 95 alarmState = alarm_check 95 alarmState ∧
    control_body 50 initialState =
      ((hvac_eval 50 (alarm_check 50 initialState).1).1,
        (alarm_check 50 initialState).2 ++
          (hvac_eval 50 (alarm_check 50 initialState).1).2) := by
  have e1 := (C9_alarm_before_hvac 104 heatState).2.2 (by decide) (by decide)
  have e2 := (C9_alarm_before_hvac 95 alarmState).1 (by decide)
  have e3 := (C9_alarm_before_hvac 50 initialState).2.1 (by decide)
  exact ⟨e1.1, e1.2, e2, e3⟩

/-- Witness for C10: opening the door while heating keeps
`hvac_state = "HEAT"` but deasserts the outputs and logs both messages;
a press with the door open logs only `DOOR CLOSED`. -/
theorem C10_door_toggle_frame_witness :
    (toggle_door_state heatState).1.hvac_state = "HEAT" ∧
    (toggle_door_state heatState).1.red_led = false ∧
    (toggle_door_state heatState).1.blue_led = false ∧
    (toggle_door_state heatState).2 = ["DOOR OPEN", "HVAC OFF"] ∧
    (toggle_door_state alarmState).2 = ["DOOR CLOSED"] := by
  have h1 := C10_door_toggle_frame heatState
  have h2 := C10_door_toggle_frame alarmState
  have ho := h1.2.2.2.2.2.2.2.2.1 (by decide)
  exact ⟨h1.1.trans (by decide), ho.1, ho.2.1, ho.2.2,
    (h2.2.2.2.2.2.2.2.2.2 (by decide)).2.2⟩

end BMS
